import Mathlib

/-
Verification of the sports-events scraper service (`main.py`).

The development shallowly embeds the program's pipeline:

* `create_search_prompt` — the prompt builder.  The Python source reads
  `datetime.now()` once at entry; the embedding makes that reading an
  explicit `Date` argument.  Gregorian date arithmetic models
  `timedelta(days=30)` and `strftime` with zero padding.
* `scrape_region_events` — the response handler.  The external model call
  together with `json.loads` is modelled at its boundary by an
  `Except Unit Json` argument: `Except.error` covers an API exception or a
  JSON decoding failure (both are raised inside the function's `try` block),
  `Except.ok j` is a successfully decoded JSON value.
* `save_events_to_db` — the persistence layer.  An event element is an
  association list of string fields (a decoded JSON object); `lookupKey`
  models Python's `dict.get`, returning `none` for a missing field.  The
  database table is a list of `Row`s threaded through the function.  The
  SQL equality of the duplicate-check `SELECT` is three-valued: a `NULL`
  parameter matches no row, modelled by `sqlEq`.  Database faults are an
  explicit schedule: `connFails` makes `get_db_connection()` raise (this
  call sits OUTSIDE the `try` block in the source, so that exception
  propagates), and `failAt = some k` makes the k-th statement executed
  inside the `try` block (counting the per-event `SELECT`s and `INSERT`s
  and finally the `COMMIT`) raise; a raised statement is caught, the
  transaction rolls back, and the function returns 0.
* `run_scrape` — the orchestrator.  Per region it consumes the already
  contained scrape result (`scraped`), calls the persistence layer, and
  accumulates `{found, saved}` entries and a total; its single `try`
  wraps the WHOLE region loop, so an uncaught exception from any region
  aborts the run and yields the error response.
-/

/-! ## JSON values (the decoded form of the model's reply) -/

inductive Json where
  | null : Json
  | bool : Bool → Json
  | num : Int → Json
  | str : String → Json
  | arr : List Json → Json
  | obj : List (String × Json) → Json

/-- Python's `dict.get(key)` on a decoded JSON object / parsed event
element: the value under the first matching key, or `none`. -/
def lookupKey {α : Type} (l : List (String × α)) (k : String) : Option α :=
  (l.find? (fun p => p.1 == k)).map (fun p => p.2)

/-- Lines 66–90 of `main.py`.  The argument is the outcome of the model
call plus `json.loads`: `Except.error` for any exception raised there
(network, auth, invalid JSON — all inside the `try`), `Except.ok j` for a
decoded JSON value `j`.  `events_data.get('events', [])` returns the raw
value under the `events` key with no shape validation; calling `.get` on a
non-object raises `AttributeError`, which the `except` turns into `[]`. -/
def scrape_region_events (outcome : Except Unit Json) : Json :=
  match outcome with
  | Except.error _ => Json.arr []
  | Except.ok (Json.obj fields) => (lookupKey fields "events").getD (Json.arr [])
  | Except.ok _ => Json.arr []

/-! ## Dates and the prompt builder -/

structure Date where
  year : Nat
  month : Nat
  day : Nat
deriving DecidableEq

def isLeap (y : Nat) : Bool :=
  (y % 4 == 0 && y % 100 != 0) || y % 400 == 0

def daysInMonth (y m : Nat) : Nat :=
  if m == 2 then (if isLeap y then 29 else 28)
  else if m == 4 || m == 6 || m == 9 || m == 11 then 30
  else 31

def nextDay (d : Date) : Date :=
  if d.day < daysInMonth d.year d.month then ⟨d.year, d.month, d.day + 1⟩
  else if d.month < 12 then ⟨d.year, d.month + 1, 1⟩
  else ⟨d.year + 1, 1, 1⟩

/-- Python's `date + timedelta(days=n)`. -/
def addDays (d : Date) : Nat → Date
  | 0 => d
  | n + 1 => nextDay (addDays d n)

def padTo (width : Nat) (n : Nat) : String :=
  let s := toString n
  if s.length < width then String.mk (List.replicate (width - s.length) '0') ++ s else s

/-- Python's `strftime('%Y-%m-%d')`. -/
def fmtYmd (d : Date) : String :=
  padTo 4 d.year ++ "-" ++ padTo 2 d.month ++ "-" ++ padTo 2 d.day

/-- Lines 32–64 of `main.py`.  The source reads `datetime.now()` once at
entry and uses it for both window bounds; the embedding passes that
reading as the explicit `today` argument, so the function is a pure
function of `(region, today)`.  The template text is the rendered form of
the source's f-string (`\x7b\x7b` renders as a literal brace). -/
def create_search_prompt (region : String) (today : Date) : String :=
  "Find current sports events happening in " ++ region ++ " from " ++
    fmtYmd today ++ " to " ++ fmtYmd (addDays today 30) ++
    ".\n\nPlease search for and provide information about upcoming sports events including:\n- Professional sports games \n- Local tournaments\n- Major sporting events\n- Tennis tournaments\n- Soccer matches\n- Basketball games\n\nFor each event you find, provide the information in this EXACT JSON format:\n\n\x7b\n  \"events\": [\n    \x7b\n      \"event_name\": \"Event name here\",\n      \"sport_type\": \"Tennis/Soccer/Basketball/etc\",\n      \"description\": \"Brief description of the event\",\n      \"event_location\": \"Venue name\",\n      \"event_address\": \"Full address if available, or venue + city\",\n      \"event_startdatetime\": \"YYYY-MM-DD HH:MM:SS\",\n      \"event_enddatetime\": \"YYYY-MM-DD HH:MM:SS or null if unknown\",\n      \"link\": \"Official website or ticket link if available\"\n    \x7d\n  ]\n\x7d\n\nImportant: Only include real, confirmed events. If no events found, return empty events array."

/-! ## Events, rows and the persistence layer -/

/-- A parsed event element: a decoded JSON object with string field
values, as handed to `save_events_to_db`.  A missing key models a missing
field (and a JSON `null` value behaves identically through `dict.get`). -/
abbrev EventDict := List (String × String)

/-- Python field read `event.get(...)`: `none` when the field is absent. -/
def eventGet (e : EventDict) (k : String) : Option String :=
  lookupKey e k

/-- One row of the `sports_events` table (the surrogate `id` column plays
no role in any observable behaviour and is omitted). -/
structure Row where
  event_name : Option String
  sport_type : Option String
  description : Option String
  event_location : Option String
  event_address : Option String
  event_startdatetime : Option String
  event_enddatetime : Option String
  link : Option String
deriving DecidableEq

/-- The row built by the `INSERT` at lines 115–129: every field read with
`event.get`, absent fields becoming SQL `NULL`. -/
def rowOf (e : EventDict) : Row :=
  { event_name := eventGet e "event_name"
    sport_type := eventGet e "sport_type"
    description := eventGet e "description"
    event_location := eventGet e "event_location"
    event_address := eventGet e "event_address"
    event_startdatetime := eventGet e "event_startdatetime"
    event_enddatetime := eventGet e "event_enddatetime"
    link := eventGet e "link" }

/-- SQL `=`: comparing with `NULL` is never true. -/
def sqlEq : Option String → Option String → Bool
  | some a, some b => a == b
  | _, _ => false

/-- The `WHERE` clause of the duplicate-check `SELECT` (lines 105–108):
does row `r` match event `e` on both natural-key columns? -/
def keyMatch (r : Row) (e : EventDict) : Bool :=
  sqlEq r.event_name (eventGet e "event_name") &&
    sqlEq r.event_startdatetime (eventGet e "event_startdatetime")

/-- Whether `cursor.fetchone()` after the duplicate-check `SELECT` found a row. -/
def isDup (store : List Row) (e : EventDict) : Bool :=
  store.any (fun r => keyMatch r e)

/-- The `for event in events` loop of lines 103–132, executed inside one
transaction: the `SELECT` sees the transaction's own earlier uncommitted
`INSERT`s, so the store is threaded through.  `opIdx` numbers the SQL
statements executed so far in this transaction; when `failAt = some opIdx`
the statement about to execute raises, modelled by `none`.  On success the
result is `(saved_count, table contents, next statement number)`. -/
def saveLoop : List EventDict → List Row → Nat → Nat → Option Nat →
    Option (Nat × List Row × Nat)
  | [], store, count, opIdx, _ => some (count, store, opIdx)
  | e :: rest, store, count, opIdx, failAt =>
    if failAt = some opIdx then none
    else if isDup store e then saveLoop rest store count (opIdx + 1) failAt
    else if failAt = some (opIdx + 1) then none
    else saveLoop rest (store ++ [rowOf e]) (count + 1) (opIdx + 2) failAt

/-- Lines 92–143 of `main.py`.  An empty batch returns 0 before any
database interaction.  `get_db_connection()` sits OUTSIDE the `try`: when
it raises (`connFails`) the exception propagates (`Except.error`).  Inside
the `try`, a raising statement (`failAt` hitting a `SELECT`, an `INSERT`,
or the final `COMMIT`) is caught, the transaction rolls back to the store
at entry, and 0 is returned.  On success the batch commits.  The `region`
argument of the source only feeds log messages and is omitted. -/
def save_events_to_db (events : List EventDict) (connFails : Bool)
    (failAt : Option Nat) (store : List Row) : Except Unit (Nat × List Row) :=
  if events.isEmpty then Except.ok (0, store)
  else if connFails then Except.error ()
  else
    match saveLoop events store 0 0 failAt with
    | none => Except.ok (0, store)
    | some (count, store2, opIdx) =>
      if failAt = some opIdx then Except.ok (0, store)
      else Except.ok (count, store2)

/-- The number of SQL statements the loop of lines 103–132 executes for
this batch against this store when nothing raises (`SELECT`s and
`INSERT`s; the `COMMIT` is not counted).  A `failAt` below this count
raises inside the loop. -/
def dbOpsCount : List EventDict → List Row → Nat
  | [], _ => 0
  | e :: rest, store =>
    if isDup store e then 1 + dbOpsCount rest store
    else 2 + dbOpsCount rest (store ++ [rowOf e])

/-! ## The orchestrator -/

/-- Lines 17–21 of `main.py`. -/
def REGIONS : List String :=
  ["Juan-Les-Pins, Antibes, South of France",
   "San Francisco Bay Area, CA",
   "New York City, NY"]

/-- The JSON reply of the `/scrape` endpoint: either the success body
with `total_events` and the per-region `{found, saved}` entries (in
region order), or the 500 error body. -/
inductive ScrapeResponse where
  | success : Nat → List (String × Nat × Nat) → ScrapeResponse
  | error : ScrapeResponse
deriving DecidableEq

/-- One configured region together with the behaviour of its external
collaborators during this run: `scraped` is the (exception-contained)
result of `scrape_region_events` — `[]` when the model call or the parse
raised — and `connFails` / `failAt` drive the database faults of this
region's persistence step. -/
structure RegionBehavior where
  name : String
  scraped : List EventDict
  connFails : Bool
  failAt : Option Nat

/-- Lines 145–177 of `main.py`: the region loop.  Each region's parsed
events go to `save_events_to_db`; `{found := len(events), saved}` is
recorded and `saved` accumulates into the total.  The single `try` wraps
the whole loop, so an uncaught exception (a connection failure) discards
everything and produces the error response; the database keeps whatever
earlier regions already committed. -/
def run_scrape : List RegionBehavior → List Row → ScrapeResponse × List Row
  | [], store => (ScrapeResponse.success 0 [], store)
  | b :: rest, store =>
    match save_events_to_db b.scraped b.connFails b.failAt store with
    | Except.error _ => (ScrapeResponse.error, store)
    | Except.ok (saved, store2) =>
      match run_scrape rest store2 with
      | (ScrapeResponse.success total results, store3) =>
        (ScrapeResponse.success (saved + total)
          ((b.name, b.scraped.length, saved) :: results), store3)
      | (ScrapeResponse.error, store3) => (ScrapeResponse.error, store3)

/-! ## Observers and specification-side definitions -/

def respIsSuccess : ScrapeResponse → Bool
  | ScrapeResponse.success _ _ => true
  | ScrapeResponse.error => false

def respEntries : ScrapeResponse → List (String × Nat × Nat)
  | ScrapeResponse.success _ es => es
  | ScrapeResponse.error => []

def entrySaved (x : String × Nat × Nat) : Nat := x.2.2

def sumSaved (es : List (String × Nat × Nat)) : Nat :=
  (es.map entrySaved).sum

/-- Follows the spec's words for the orchestrator's bookkeeping: for each
region in order, record `{found: len(events), saved: saved_count}` under
the region key, `saved_count` being the persistence layer's result on the
store as threaded so far.  (The spec's persistence layer never throws; the
`Except.error` branch, unreachable in any completed run, records zero.) -/
def specScrapeEntries : List RegionBehavior → List Row → List (String × Nat × Nat)
  | [], _ => []
  | b :: rest, store =>
    match save_events_to_db b.scraped b.connFails b.failAt store with
    | Except.ok (saved, store2) =>
      (b.name, b.scraped.length, saved) :: specScrapeEntries rest store2
    | Except.error _ =>
      (b.name, b.scraped.length, 0) :: specScrapeEntries rest store

/-- What one per-region result entry must say about its region (claim C1):
the region key, `found` = number of parsed events, and a region whose
model call or parse failed (no parsed events) reports zero saved. -/
def entryMatches (entry : String × Nat × Nat) (b : RegionBehavior) : Prop :=
  entry.1 = b.name ∧ entry.2.1 = b.scraped.length ∧
    (b.scraped = [] → entry.2.2 = 0)

/-- No region of the run hits a database-connection failure on a nonempty
batch (an empty batch never opens a connection). -/
def noConnFailure (regions : List RegionBehavior) : Bool :=
  regions.all (fun b => !b.connFails || b.scraped.isEmpty)

/-! ## Key predicates for the invariant and idempotence claims -/

/-- The duplicate-check comparison between two stored rows: both
natural-key columns equal under SQL `=` (a `NULL` column matches
nothing). -/
def rowKeyEq (r1 r2 : Row) : Bool :=
  sqlEq r1.event_name r2.event_name &&
    sqlEq r1.event_startdatetime r2.event_startdatetime

/-- The store invariant of the spec's data model: no two rows of the
table agree on the natural key `(event_name, event_startdatetime)` (SQL
comparison, as the application-layer read-then-write enforces it). -/
def storeInv : List Row → Bool
  | [] => true
  | r :: rest => rest.all (fun x => !rowKeyEq r x) && storeInv rest

/-- Every event of the batch carries both natural-key fields. -/
def allHaveKeys (events : List EventDict) : Bool :=
  events.all (fun e =>
    (eventGet e "event_name").isSome && (eventGet e "event_startdatetime").isSome)

/-- No two events of the batch agree on the natural key. -/
def pairwiseKeyDistinct : List EventDict → Bool
  | [] => true
  | e :: rest =>
    rest.all (fun b => !keyMatch (rowOf e) b) && pairwiseKeyDistinct rest

deriving instance DecidableEq for Except

/-! ## Concrete inputs used by witnesses and counterexamples -/

def wDupEvent1 : EventDict :=
  [("event_name", "City Marathon"), ("event_startdatetime", "2025-07-05 09:00:00"),
   ("sport_type", "Running")]

def wDupEvent2 : EventDict :=
  [("event_name", "City Marathon"), ("event_startdatetime", "2025-07-05 09:00:00"),
   ("description", "second copy of the same event")]

def wFiveEvents : List EventDict :=
  [[("event_name", "Open Cup"), ("event_startdatetime", "2025-07-01 10:00:00")],
   [("event_name", "Bay Derby"), ("event_startdatetime", "2025-07-02 11:00:00")],
   [("event_name", "City Slam"), ("event_startdatetime", "2025-07-03 12:00:00")],
   [("event_name", "Night Race"), ("event_startdatetime", "2025-07-04 13:00:00")],
   [("event_name", "Harbor Regatta"), ("event_startdatetime", "2025-07-05 14:00:00")]]

def wNullKeyEvent : EventDict := [("event_startdatetime", "2025-01-01 10:00:00")]

def wIdemEvents : List EventDict :=
  [[("event_name", "Summer Open"), ("event_startdatetime", "2025-07-10 10:00:00"),
    ("sport_type", "Tennis")],
   [("event_name", "Autumn Cup"), ("event_startdatetime", "2025-09-01 18:30:00"),
    ("sport_type", "Soccer")]]

def wExactE1 : EventDict :=
  [("event_name", "X"), ("event_startdatetime", "2025-01-01 10:00:00")]

def wExactE2 : EventDict :=
  [("event_name", "X"), ("event_startdatetime", "2025-01-01 10:00:01")]

/-- An event element carrying only the two natural-key fields. -/
def minimalEvent (n s : String) : EventDict :=
  [("event_name", n), ("event_startdatetime", s)]

def wIsoEventA : EventDict :=
  [("event_name", "Antibes Beach Volley Cup"), ("event_startdatetime", "2025-07-12 09:00:00")]

def wIsoEventC : EventDict :=
  [("event_name", "NYC Night Run"), ("event_startdatetime", "2025-07-20 20:00:00")]

def wIsoRegions : List RegionBehavior :=
  [⟨"Juan-Les-Pins, Antibes, South of France", [wIsoEventA], false, none⟩,
   ⟨"San Francisco Bay Area, CA", [], false, none⟩,
   ⟨"New York City, NY", [wIsoEventC], false, some 0⟩]

def cxEventA : EventDict :=
  [("event_name", "Antibes Regatta"), ("event_startdatetime", "2025-07-12 09:00:00")]

def cxEventB : EventDict :=
  [("event_name", "Bay Sailfest"), ("event_startdatetime", "2025-07-15 10:00:00")]

def cxEventC : EventDict :=
  [("event_name", "Brooklyn Derby"), ("event_startdatetime", "2025-07-20 20:00:00")]

def cxRegions : List RegionBehavior :=
  [⟨"Juan-Les-Pins, Antibes, South of France", [cxEventA], false, none⟩,
   ⟨"San Francisco Bay Area, CA", [cxEventB], true, none⟩,
   ⟨"New York City, NY", [cxEventC], false, none⟩]

def wShapeE1 : EventDict :=
  [("event_name", "Cote Azur Open"), ("event_startdatetime", "2025-07-03 10:00:00")]

def wShapeE2 : EventDict :=
  [("event_name", "Antibes Masters"), ("event_startdatetime", "2025-07-04 10:00:00")]

def wShapeE3 : EventDict :=
  [("event_name", "Manhattan Mile"), ("event_startdatetime", "2025-07-08 07:00:00")]

def wShapeRegions : List RegionBehavior :=
  [⟨"Juan-Les-Pins, Antibes, South of France", [wShapeE1, wShapeE2], false, none⟩,
   ⟨"San Francisco Bay Area, CA", [], false, none⟩,
   ⟨"New York City, NY", [wShapeE3], false, none⟩]

/-! ## Basic lemmas about the persistence layer -/

theorem save_events_nil (connFails : Bool) (failAt : Option Nat) (store : List Row) :
    save_events_to_db [] connFails failAt store = Except.ok (0, store) := rfl

theorem isDup_append (s1 s2 : List Row) (e : EventDict) :
    isDup (s1 ++ s2) e = (isDup s1 e || isDup s2 e) := by
  simp [isDup, List.any_append]

theorem rowKeyEq_rowOf (r : Row) (e : EventDict) :
    rowKeyEq r (rowOf e) = keyMatch r e := rfl

theorem not_isDup_iff (store : List Row) (e : EventDict) :
    isDup store e = false ↔ ∀ r ∈ store, keyMatch r e = false := by
  simp [isDup, List.any_eq_false]

theorem storeInv_iff_pairwise (store : List Row) :
    storeInv store = true ↔ store.Pairwise (fun a b => rowKeyEq a b = false) := by
  induction store with
  | nil => simp [storeInv]
  | cons r rest ih =>
    simp [storeInv, List.all_eq_true, List.pairwise_cons, ih]

/-- Inserting a row whose natural key matches nothing already stored
keeps the invariant. -/
theorem storeInv_append_new (store : List Row) (e : EventDict)
    (hinv : storeInv store = true) (hnew : isDup store e = false) :
    storeInv (store ++ [rowOf e]) = true := by
  rw [storeInv_iff_pairwise, List.pairwise_append]
  refine ⟨(storeInv_iff_pairwise store).mp hinv, by simp, ?_⟩
  intro a ha b hb
  rw [List.mem_singleton] at hb
  subst hb
  rw [rowKeyEq_rowOf]
  exact (not_isDup_iff store e).mp hnew a ha

theorem saveLoop_preserves_inv (events : List EventDict) :
    ∀ (store : List Row) (count opIdx : Nat) (failAt : Option Nat)
      (out : Nat × List Row × Nat),
      storeInv store = true → saveLoop events store count opIdx failAt = some out →
      storeInv out.2.1 = true := by
  induction events with
  | nil =>
    intro store count opIdx failAt out hinv hloop
    simp [saveLoop] at hloop
    rw [← hloop]
    exact hinv
  | cons e rest ih =>
    intro store count opIdx failAt out hinv hloop
    rw [saveLoop] at hloop
    by_cases h0 : failAt = some opIdx
    · rw [if_pos h0] at hloop
      exact absurd hloop (by simp)
    rw [if_neg h0] at hloop
    by_cases hdup : isDup store e
    · rw [if_pos hdup] at hloop
      exact ih store count (opIdx + 1) failAt out hinv hloop
    rw [if_neg hdup] at hloop
    by_cases h1 : failAt = some (opIdx + 1)
    · rw [if_pos h1] at hloop
      exact absurd hloop (by simp)
    rw [if_neg h1] at hloop
    refine ih (store ++ [rowOf e]) (count + 1) (opIdx + 2) failAt out ?_ hloop
    exact storeInv_append_new store e hinv (Bool.not_eq_true _ ▸ eq_false_of_ne_true hdup)

/-- Claim C4: the store invariant — no two rows share both `event_name`
and `event_startdatetime` (as the application-layer duplicate check
compares them) — is preserved by every `save_events_to_db` call, for
every store satisfying it and every batch, including batches repeating
the same natural key: the in-transaction `SELECT` sees the batch's own
earlier `INSERT`s, so the repeat is skipped. -/
theorem save_events_preserves_key_uniqueness (events : List EventDict)
    (connFails : Bool) (failAt : Option Nat) (store : List Row)
    (n : Nat) (store2 : List Row)
    (hinv : storeInv store = true)
    (hsave : save_events_to_db events connFails failAt store = Except.ok (n, store2)) :
    storeInv store2 = true := by
  unfold save_events_to_db at hsave
  split at hsave
  · obtain ⟨-, rfl⟩ : 0 = n ∧ store = store2 := by simpa using hsave
    exact hinv
  · split at hsave
    · exact absurd hsave (by simp)
    · split at hsave
      next hloop =>
        obtain ⟨-, rfl⟩ : 0 = n ∧ store = store2 := by simpa using hsave
        exact hinv
      next count st opIdx hloop =>
        split at hsave
        · obtain ⟨-, rfl⟩ : 0 = n ∧ store = store2 := by simpa using hsave
          exact hinv
        · obtain ⟨-, rfl⟩ : count = n ∧ st = store2 := by simpa using hsave
          exact saveLoop_preserves_inv events store 0 0 failAt (count, st, opIdx) hinv hloop

/-- Witness for C4: a batch containing the same natural key twice, saved
into an empty store, yields one row and an invariant-satisfying store. -/
theorem save_events_preserves_key_uniqueness_witness :
    storeInv [] = true ∧
      save_events_to_db [wDupEvent1, wDupEvent2] false none [] =
        Except.ok (1, [rowOf wDupEvent1]) ∧
      storeInv [rowOf wDupEvent1] = true :=
  ⟨rfl, by decide,
    save_events_preserves_key_uniqueness [wDupEvent1, wDupEvent2] false none []
      1 [rowOf wDupEvent1] rfl (by decide)⟩

/-- Claim C10: an empty batch returns `saved_count = 0` straight from the
`if not events` guard at line 94: the store is untouched and no database
interaction happens — in particular the result is the same even when the
connection step would fail (`connFails = true`) or any statement would
raise (`failAt` arbitrary), because neither is ever reached. -/
theorem save_events_empty_batch_no_db_touch (connFails : Bool)
    (failAt : Option Nat) (store : List Row) :
    save_events_to_db [] connFails failAt store = Except.ok (0, store) := rfl

/-- When the fault index falls on one of the statements the loop
executes (a `SELECT` or an `INSERT`), the loop raises. -/
theorem saveLoop_raises (events : List EventDict) :
    ∀ (store : List Row) (count opIdx k : Nat),
      k < dbOpsCount events store →
      saveLoop events store count opIdx (some (opIdx + k)) = none := by
  induction events with
  | nil =>
    intro store count opIdx k hk
    simp [dbOpsCount] at hk
  | cons e rest ih =>
    intro store count opIdx k hk
    rw [saveLoop]
    by_cases h0 : k = 0
    · subst h0
      rw [if_pos (by rw [Nat.add_zero])]
    · rw [if_neg (by simp; omega)]
      by_cases hdup : isDup store e
      · rw [if_pos hdup]
        rw [dbOpsCount, if_pos hdup] at hk
        have h2 : opIdx + k = (opIdx + 1) + (k - 1) := by omega
        rw [h2]
        exact ih store count (opIdx + 1) (k - 1) (by omega)
      · rw [if_neg hdup]
        rw [dbOpsCount, if_neg hdup] at hk
        by_cases h1 : k = 1
        · subst h1
          rw [if_pos rfl]
        · rw [if_neg (by simp; omega)]
          have h2 : opIdx + k = (opIdx + 2) + (k - 2) := by omega
          rw [h2]
          exact ih (store ++ [rowOf e]) (count + 1) (opIdx + 2) (k - 2) (by omega)

/-- Claim C2: if a database exception is raised at any point during the
persistence loop — the fault index `k` falls on one of the `SELECT` or
`INSERT` statements the loop executes for this batch against this store —
then the batch rolls back: the returned pair carries `saved_count = 0`
and the store exactly as it was at batch start, and the outcome is
`Except.ok` (the exception is caught at the persistence boundary, not
propagated). -/
theorem save_events_rolls_back_on_loop_exception (events : List EventDict)
    (store : List Row) (k : Nat)
    (hk : k < dbOpsCount events store) :
    save_events_to_db events false (some k) store = Except.ok (0, store) := by
  cases events with
  | nil => simp [dbOpsCount] at hk
  | cons e rest =>
    unfold save_events_to_db
    have hnone := saveLoop_raises (e :: rest) store 0 0 k hk
    rw [Nat.zero_add] at hnone
    rw [hnone]
    rfl

/-- Witness for C2, the spec's scenario: five fresh events, the database
raises on the third `INSERT` (statement index 5), nothing stays
committed and zero is reported. -/
theorem save_events_rolls_back_on_loop_exception_witness :
    5 < dbOpsCount wFiveEvents [] ∧
      save_events_to_db wFiveEvents false (some 5) [] = Except.ok (0, []) :=
  ⟨by decide, save_events_rolls_back_on_loop_exception wFiveEvents [] 5 (by decide)⟩

/-- A fault-free loop over a batch of key-fresh, pairwise key-distinct
events inserts every event, in order. -/
theorem saveLoop_all_new (events : List EventDict) :
    ∀ (store : List Row) (count opIdx : Nat),
      (∀ e ∈ events, isDup store e = false) →
      pairwiseKeyDistinct events = true →
      saveLoop events store count opIdx none =
        some (count + events.length, store ++ events.map rowOf,
          opIdx + 2 * events.length) := by
  induction events with
  | nil =>
    intro store count opIdx _ _
    simp [saveLoop]
  | cons e rest ih =>
    intro store count opIdx hnew hpair
    simp only [pairwiseKeyDistinct, Bool.and_eq_true, List.all_eq_true,
      Bool.not_eq_true'] at hpair
    obtain ⟨hhead, htail⟩ := hpair
    rw [saveLoop]
    rw [if_neg (by simp)]
    rw [hnew e (List.mem_cons_self e rest), if_neg (by simp)]
    rw [if_neg (by simp)]
    have hrest : ∀ x ∈ rest, isDup (store ++ [rowOf e]) x = false := by
      intro x hx
      rw [isDup_append, hnew x (List.mem_cons_of_mem e hx), Bool.false_or]
      simpa [isDup] using hhead x hx
    rw [ih (store ++ [rowOf e]) (count + 1) (opIdx + 2) hrest htail]
    simp [List.append_assoc]
    omega

/-- A fault-free loop over a batch in which every event already has a
matching stored row skips everything: nothing saved, store unchanged. -/
theorem saveLoop_all_dup (events : List EventDict) :
    ∀ (store : List Row) (count opIdx : Nat),
      (∀ e ∈ events, isDup store e = true) →
      saveLoop events store count opIdx none = some (count, store, opIdx + events.length) := by
  induction events with
  | nil =>
    intro store count opIdx _
    simp [saveLoop]
  | cons e rest ih =>
    intro store count opIdx hdup
    rw [saveLoop, if_neg (by simp)]
    rw [hdup e (List.mem_cons_self e rest), if_pos rfl]
    rw [ih store count (opIdx + 1) (fun x hx => hdup x (List.mem_cons_of_mem e hx))]
    simp
    omega

/-- Claim C5, amended: re-ingestion is idempotent for batches whose
events all carry both natural-key fields and have pairwise distinct
natural keys.  The first run into an empty store saves all N events; the
second run on the resulting store saves 0 and leaves it unchanged.  (The
amendment excludes events missing a key field: SQL `=` never matches a
`NULL` column, so such events are re-inserted on every run — see the
counterexample.) -/
theorem reingest_idempotent_with_present_keys (events : List EventDict)
    (hkeys : allHaveKeys events = true)
    (hdistinct : pairwiseKeyDistinct events = true) :
    save_events_to_db events false none [] =
        Except.ok (events.length, events.map rowOf) ∧
      save_events_to_db events false none (events.map rowOf) =
        Except.ok (0, events.map rowOf) := by
  cases events with
  | nil => exact ⟨rfl, rfl⟩
  | cons e rest =>
    constructor
    · unfold save_events_to_db
      have h1 : ∀ x ∈ e :: rest, isDup [] x = false := by
        intro x _
        rfl
      rw [saveLoop_all_new (e :: rest) [] 0 0 h1 hdistinct]
      simp
    · unfold save_events_to_db
      have h2 : ∀ x ∈ e :: rest, isDup ((e :: rest).map rowOf) x = true := by
        intro x hx
        simp only [allHaveKeys, List.all_eq_true, Bool.and_eq_true] at hkeys
        obtain ⟨hn, hs⟩ := hkeys x hx
        obtain ⟨n, hn⟩ := Option.isSome_iff_exists.mp hn
        obtain ⟨s, hs⟩ := Option.isSome_iff_exists.mp hs
        simp only [isDup, List.any_eq_true]
        refine ⟨rowOf x, List.mem_map_of_mem rowOf hx, ?_⟩
        simp [keyMatch, rowOf, hn, hs, sqlEq]
      rw [saveLoop_all_dup (e :: rest) ((e :: rest).map rowOf) 0 0 h2]
      rfl

/-- Counterexample to C5 as stated: an event record missing its
`event_name` field is stored with a `NULL` name; the duplicate-check
`SELECT` compares with SQL `=`, which a `NULL` column never satisfies, so
a second run over the same fixed event set re-inserts the event and
reports `saved = 1`, not 0. -/
theorem reingest_not_idempotent_with_null_key :
    save_events_to_db [wNullKeyEvent] false none [] =
        Except.ok (1, [rowOf wNullKeyEvent]) ∧
      save_events_to_db [wNullKeyEvent] false none [rowOf wNullKeyEvent] =
        Except.ok (1, [rowOf wNullKeyEvent, rowOf wNullKeyEvent]) ∧
      save_events_to_db [wNullKeyEvent] false none [rowOf wNullKeyEvent] ≠
        Except.ok (0, [rowOf wNullKeyEvent]) :=
  ⟨by decide, by decide, by decide⟩

/-- Witness for the amended C5: two well-keyed distinct events, saved
twice — 2 on the first run, 0 on the second. -/
theorem reingest_idempotent_with_present_keys_witness :
    allHaveKeys wIdemEvents = true ∧ pairwiseKeyDistinct wIdemEvents = true ∧
      (save_events_to_db wIdemEvents false none [] =
          Except.ok (wIdemEvents.length, wIdemEvents.map rowOf) ∧
        save_events_to_db wIdemEvents false none (wIdemEvents.map rowOf) =
          Except.ok (0, wIdemEvents.map rowOf)) :=
  ⟨by decide, by decide,
    reingest_idempotent_with_present_keys wIdemEvents (by decide) (by decide)⟩

/-- Claim C6: duplicate detection is an exact comparison on the natural
key.  Two events — identical `event_name`, start times that are different
strings (in any character), neither already stored — are both inserted
and both counted. -/
theorem save_events_distinct_start_times_both_inserted
    (e1 e2 : EventDict) (store : List Row) (s1 s2 : String)
    (_hname : eventGet e1 "event_name" = eventGet e2 "event_name")
    (h1 : eventGet e1 "event_startdatetime" = some s1)
    (h2 : eventGet e2 "event_startdatetime" = some s2)
    (hne : s1 ≠ s2)
    (hd1 : isDup store e1 = false)
    (hd2 : isDup store e2 = false) :
    save_events_to_db [e1, e2] false none store =
      Except.ok (2, store ++ [rowOf e1, rowOf e2]) := by
  have hkm : keyMatch (rowOf e1) e2 = false := by
    simp [keyMatch, rowOf, h1, h2, sqlEq, hne]
  unfold save_events_to_db
  have hloop : saveLoop [e1, e2] store 0 0 none =
      some (2, store ++ [rowOf e1, rowOf e2], 4) := by
    rw [saveLoop, if_neg (by simp), hd1, if_neg (by simp), if_neg (by simp)]
    have hnd2 : isDup (store ++ [rowOf e1]) e2 = false := by
      rw [isDup_append, hd2, Bool.false_or]
      simpa [isDup] using hkm
    rw [saveLoop, if_neg (by simp), hnd2, if_neg (by simp), if_neg (by simp), saveLoop]
    simp [List.append_assoc]
  rw [hloop]
  rfl

/-- Witness for C6, the spec's example: same name, start times differing
in the final second digit, both inserted into an empty store. -/
theorem save_events_distinct_start_times_both_inserted_witness :
    (eventGet wExactE1 "event_name" = eventGet wExactE2 "event_name" ∧
      eventGet wExactE1 "event_startdatetime" = some "2025-01-01 10:00:00" ∧
      eventGet wExactE2 "event_startdatetime" = some "2025-01-01 10:00:01" ∧
      ("2025-01-01 10:00:00" : String) ≠ "2025-01-01 10:00:01" ∧
      isDup [] wExactE1 = false ∧ isDup [] wExactE2 = false) ∧
      save_events_to_db [wExactE1, wExactE2] false none [] =
        Except.ok (2, [] ++ [rowOf wExactE1, rowOf wExactE2]) :=
  ⟨⟨by decide, by decide, by decide, by decide, by decide, by decide⟩,
    save_events_distinct_start_times_both_inserted wExactE1 wExactE2 []
      "2025-01-01 10:00:00" "2025-01-01 10:00:01"
      (by decide) (by decide) (by decide) (by decide) (by decide) (by decide)⟩

/-- Claim C8: every field is read with `event.get`, so a field missing
from the element yields `none` rather than an error — the row built for a
record carrying only `event_name` and `event_startdatetime` has the other
six columns `NULL` — and the persistence layer inserts that record
successfully (saved count 1, row appended). -/
theorem save_events_inserts_minimal_record (n s : String) (store : List Row)
    (hfresh : isDup store (minimalEvent n s) = false) :
    rowOf (minimalEvent n s) =
        { event_name := some n, sport_type := none, description := none,
          event_location := none, event_address := none,
          event_startdatetime := some s, event_enddatetime := none, link := none } ∧
      save_events_to_db [minimalEvent n s] false none store =
        Except.ok (1, store ++
          [{ event_name := some n, sport_type := none, description := none,
             event_location := none, event_address := none,
             event_startdatetime := some s, event_enddatetime := none, link := none }]) := by
  constructor
  · rfl
  · unfold save_events_to_db
    have hloop : saveLoop [minimalEvent n s] store 0 0 none =
        some (1, store ++ [rowOf (minimalEvent n s)], 2) := by
      rw [saveLoop, if_neg (by simp), hfresh, if_neg (by simp), if_neg (by simp), saveLoop]
    rw [hloop]
    rfl

/-- Witness for C8, the spec's example record. -/
theorem save_events_inserts_minimal_record_witness :
    isDup [] (minimalEvent "X" "2025-01-01 10:00:00") = false ∧
      (rowOf (minimalEvent "X" "2025-01-01 10:00:00") =
          { event_name := some "X", sport_type := none, description := none,
            event_location := none, event_address := none,
            event_startdatetime := some "2025-01-01 10:00:00",
            event_enddatetime := none, link := none } ∧
        save_events_to_db [minimalEvent "X" "2025-01-01 10:00:00"] false none [] =
          Except.ok (1, [] ++
            [{ event_name := some "X", sport_type := none, description := none,
               event_location := none, event_address := none,
               event_startdatetime := some "2025-01-01 10:00:00",
               event_enddatetime := none, link := none }])) :=
  ⟨by decide,
    save_events_inserts_minimal_record "X" "2025-01-01 10:00:00" [] (by decide)⟩

/-! ## Orchestrator lemmas -/

/-- When the connection step cannot raise (no connection failure, or an
empty batch that never opens one), the persistence layer always returns a
count: every exception inside the loop is caught there. -/
theorem save_events_ok_of_no_connfail (events : List EventDict) (connFails : Bool)
    (failAt : Option Nat) (store : List Row)
    (h : connFails = false ∨ events = []) :
    ∃ n store2, save_events_to_db events connFails failAt store = Except.ok (n, store2) := by
  by_cases he : events.isEmpty
  · refine ⟨0, store, ?_⟩
    unfold save_events_to_db
    rw [if_pos he]
  · have hc : connFails = false := by
      rcases h with hc | he2
      · exact hc
      · exact absurd (by rw [he2]; rfl) he
    subst hc
    unfold save_events_to_db
    rw [if_neg he, if_neg (by simp)]
    cases hl : saveLoop events store 0 0 failAt with
    | none => exact ⟨0, store, rfl⟩
    | some out =>
      obtain ⟨count, st, opIdx⟩ := out
      by_cases hcm : failAt = some opIdx
      · exact ⟨0, store, by simp [hcm]⟩
      · exact ⟨count, st, by simp [hcm]⟩

theorem run_scrape_success_of_no_connfail (regions : List RegionBehavior) :
    ∀ store : List Row, noConnFailure regions = true →
      ∃ total store2, run_scrape regions store =
        (ScrapeResponse.success total (specScrapeEntries regions store), store2) := by
  induction regions with
  | nil =>
    intro store _
    exact ⟨0, store, rfl⟩
  | cons b rest ih =>
    intro store hnc
    simp only [noConnFailure, List.all_cons, Bool.and_eq_true] at hnc
    have hb : b.connFails = false ∨ b.scraped = [] := by
      have h1 := hnc.1
      simp only [Bool.or_eq_true, Bool.not_eq_true', List.isEmpty_iff] at h1
      exact h1
    obtain ⟨n, store2, hsave⟩ :=
      save_events_ok_of_no_connfail b.scraped b.connFails b.failAt store hb
    obtain ⟨total, store3, hrun⟩ := ih store2 hnc.2
    refine ⟨n + total, store3, ?_⟩
    simp only [run_scrape, specScrapeEntries, hsave, hrun]

theorem specScrapeEntries_matches (regions : List RegionBehavior) :
    ∀ store : List Row,
      List.Forall₂ entryMatches (specScrapeEntries regions store) regions := by
  induction regions with
  | nil =>
    intro store
    exact List.Forall₂.nil
  | cons b rest ih =>
    intro store
    cases hsave : save_events_to_db b.scraped b.connFails b.failAt store with
    | error e =>
      simp only [specScrapeEntries, hsave]
      exact List.Forall₂.cons ⟨rfl, rfl, fun _ => rfl⟩ (ih store)
    | ok p =>
      obtain ⟨n, store2⟩ := p
      simp only [specScrapeEntries, hsave]
      refine List.Forall₂.cons ⟨rfl, rfl, ?_⟩ (ih store2)
      intro hempty
      rw [hempty, save_events_nil] at hsave
      obtain ⟨h1, -⟩ : 0 = n ∧ store = store2 := by simpa using hsave
      exact h1.symm

/-- Claim C1, amended: an exception raised in a region's model call or
parse step (contained there, yielding no parsed events) or inside its
persistence loop (contained at the persistence boundary) does not prevent
any region from being processed: provided no region hits a
database-connection failure on a nonempty batch, the run succeeds and
every configured region, in order, contributes its entry — `found` = its
number of parsed events, and a region whose model call or parse failed
contributes `found = 0, saved = 0`.  (The amendment excludes connection
acquisition, which line 98 places outside the `try`: that exception
aborts the whole run — see the counterexample.) -/
theorem run_scrape_processes_all_regions (regions : List RegionBehavior)
    (store : List Row) (h : noConnFailure regions = true) :
    respIsSuccess (run_scrape regions store).1 = true ∧
      List.Forall₂ entryMatches (respEntries (run_scrape regions store).1) regions := by
  obtain ⟨total, store2, hrun⟩ := run_scrape_success_of_no_connfail regions store h
  rw [hrun]
  exact ⟨rfl, specScrapeEntries_matches regions store⟩

/-- Witness for the amended C1: region 2's model call failed (no parsed
events) and region 3's duplicate-check `SELECT` raises inside the loop;
the run still succeeds and all three regions contribute entries. -/
theorem run_scrape_processes_all_regions_witness :
    noConnFailure wIsoRegions = true ∧
      (respIsSuccess (run_scrape wIsoRegions []).1 = true ∧
        List.Forall₂ entryMatches (respEntries (run_scrape wIsoRegions []).1) wIsoRegions) :=
  ⟨by decide, run_scrape_processes_all_regions wIsoRegions [] (by decide)⟩

/-- Counterexample to C1 as stated: `get_db_connection()` (line 98) sits
outside `save_events_to_db`'s `try`, and `run_scrape`'s `try` wraps the
whole region loop.  With three regions where region 2's connection
acquisition raises during its persistence step, the run returns the error
response: region 3 is never processed and contributes no `{found, saved}`
entry (region 1's already-committed row is all that remains). -/
theorem run_scrape_conn_failure_aborts_run :
    run_scrape cxRegions [] = (ScrapeResponse.error, [rowOf cxEventA]) ∧
      respIsSuccess (run_scrape cxRegions []).1 = false ∧
      respEntries (run_scrape cxRegions []).1 = [] :=
  ⟨by decide, by decide, by decide⟩

/-- Claim C7: whenever a run completes (the response is the success
body), the reported results are exactly the spec's bookkeeping — one
entry per configured region in order, `found` = number of parsed events
and `saved` = the persistence layer's count as `specScrapeEntries`
records them — and `total_events` is the sum over regions of `saved`
(not of `found`). -/
theorem run_scrape_result_shape (regions : List RegionBehavior) (store : List Row)
    (total : Nat) (results : List (String × Nat × Nat)) (store2 : List Row)
    (hrun : run_scrape regions store = (ScrapeResponse.success total results, store2)) :
    results = specScrapeEntries regions store ∧ total = sumSaved results ∧
      results.length = regions.length := by
  induction regions generalizing store total results store2 with
  | nil =>
    rw [run_scrape] at hrun
    obtain ⟨h1, h2⟩ : (0 = total ∧ [] = results) ∧ store = store2 := by
      simpa [Prod.ext_iff, ScrapeResponse.success.injEq] using hrun
    obtain ⟨ht, hr⟩ := h1
    subst ht
    subst hr
    exact ⟨rfl, rfl, rfl⟩
  | cons b rest ih =>
    rw [run_scrape] at hrun
    cases hsave : save_events_to_db b.scraped b.connFails b.failAt store with
    | error e =>
      rw [hsave] at hrun
      simp at hrun
    | ok p =>
      obtain ⟨n, st2⟩ := p
      simp only [hsave] at hrun
      cases hrec : run_scrape rest st2 with
      | mk resp store3 =>
        cases resp with
        | success t2 res2 =>
          simp only [hrec] at hrun
          obtain ⟨⟨ht, hr⟩, -⟩ :
              (n + t2 = total ∧ (b.name, b.scraped.length, n) :: res2 = results) ∧
                store3 = store2 := by
            simpa [Prod.ext_iff, ScrapeResponse.success.injEq] using hrun
          subst ht
          subst hr
          obtain ⟨ih1, ih2, ih3⟩ := ih st2 t2 res2 store3 hrec
          refine ⟨?_, ?_, ?_⟩
          · simp only [specScrapeEntries, hsave]
            rw [ih1]
          · simp only [sumSaved, entrySaved, List.map_cons, List.sum_cons]
            rw [ih2]
            rfl
          · simp [ih3]
        | error =>
          simp only [hrec] at hrun
          simp at hrun

/-- Witness for C7, the spec's end-to-end scenario: 2 + 0 + 1 fresh
events across the three regions yield `total_events = 3` and per-region
entries `{found: 2, saved: 2}`, `{found: 0, saved: 0}`, `{found: 1,
saved: 1}`. -/
theorem run_scrape_result_shape_witness :
    run_scrape wShapeRegions [] =
        (ScrapeResponse.success 3
          [("Juan-Les-Pins, Antibes, South of France", 2, 2),
           ("San Francisco Bay Area, CA", 0, 0),
           ("New York City, NY", 1, 1)],
          [rowOf wShapeE1, rowOf wShapeE2, rowOf wShapeE3]) ∧
      ([("Juan-Les-Pins, Antibes, South of France", 2, 2),
        ("San Francisco Bay Area, CA", 0, 0),
        ("New York City, NY", 1, 1)] = specScrapeEntries wShapeRegions [] ∧
       3 = sumSaved
          [("Juan-Les-Pins, Antibes, South of France", 2, 2),
           ("San Francisco Bay Area, CA", 0, 0),
           ("New York City, NY", 1, 1)] ∧
       ([("Juan-Les-Pins, Antibes, South of France", 2, 2),
         ("San Francisco Bay Area, CA", 0, 0),
         ("New York City, NY", 1, 1)] : List (String × Nat × Nat)).length =
          wShapeRegions.length) :=
  ⟨by decide,
    run_scrape_result_shape wShapeRegions [] 3
      [("Juan-Les-Pins, Antibes, South of France", 2, 2),
       ("San Francisco Bay Area, CA", 0, 0),
       ("New York City, NY", 1, 1)]
      [rowOf wShapeE1, rowOf wShapeE2, rowOf wShapeE3] (by decide)⟩

/-- Claim C3, amended: the response handler never raises — an exception
from the model call or from JSON decoding, a non-object reply, or an
object without an `events` key all yield the empty array — but when the
`events` key is present its value is returned AS-IS, with no shape
validation: a wrong-shape `events` value is passed through, not replaced
by an empty sequence. -/
theorem scrape_region_events_never_raises (outcome : Except Unit Json) :
    scrape_region_events outcome = Json.arr [] ∨
      ∃ fields, outcome = Except.ok (Json.obj fields) ∧
        lookupKey fields "events" = some (scrape_region_events outcome) := by
  cases outcome with
  | error e => exact Or.inl rfl
  | ok j =>
    cases j with
    | null => exact Or.inl rfl
    | bool b => exact Or.inl rfl
    | num n => exact Or.inl rfl
    | str s => exact Or.inl rfl
    | arr xs => exact Or.inl rfl
    | obj fields =>
      cases hf : lookupKey fields "events" with
      | none =>
        left
        simp [scrape_region_events, hf]
      | some v =>
        right
        exact ⟨fields, rfl, by simp [scrape_region_events, hf]⟩

/-- Counterexample to C3 as stated: the reply
`\x7b"events": 5\x7d` is valid JSON with an `events` key of the wrong
shape, yet the handler returns the number 5 — not an empty sequence of
event records. -/
theorem scrape_region_events_wrong_shape_passthrough :
    scrape_region_events (Except.ok (Json.obj [("events", Json.num 5)])) = Json.num 5 ∧
      scrape_region_events (Except.ok (Json.obj [("events", Json.num 5)])) ≠ Json.arr [] :=
  ⟨rfl, fun h => Json.noConfusion h⟩

/-- Claim C9: the prompt builder is a pure function of the region and the
reference date (the single `datetime.now()` reading), and its text embeds
the region name and both bounds of the 30-day window — `fmtYmd today` and
`fmtYmd (addDays today 30)`, both rendered `YYYY-MM-DD` with zero
padding. -/
theorem create_search_prompt_embeds_region_and_window (region : String) (today : Date) :
    ∃ s1 s2 s3 s4, create_search_prompt region today =
      s1 ++ region ++ s2 ++ fmtYmd today ++ s3 ++ fmtYmd (addDays today 30) ++ s4 :=
  ⟨"Find current sports events happening in ", " from ", " to ",
    ".\n\nPlease search for and provide information about upcoming sports events including:\n- Professional sports games \n- Local tournaments\n- Major sporting events\n- Tennis tournaments\n- Soccer matches\n- Basketball games\n\nFor each event you find, provide the information in this EXACT JSON format:\n\n\x7b\n  \"events\": [\n    \x7b\n      \"event_name\": \"Event name here\",\n      \"sport_type\": \"Tennis/Soccer/Basketball/etc\",\n      \"description\": \"Brief description of the event\",\n      \"event_location\": \"Venue name\",\n      \"event_address\": \"Full address if available, or venue + city\",\n      \"event_startdatetime\": \"YYYY-MM-DD HH:MM:SS\",\n      \"event_enddatetime\": \"YYYY-MM-DD HH:MM:SS or null if unknown\",\n      \"link\": \"Official website or ticket link if available\"\n    \x7d\n  ]\n\x7d\n\nImportant: Only include real, confirmed events. If no events found, return empty events array.",
    rfl⟩
